import Mathlib

/-!
Shallow embedding of the admin service module
(src/services/admin.service.ts of immanuelk1m/primary).

The module builds filtered, sorted, paginated database queries against the
tables `users`, `posts` and `reports`, executes them, maps database errors
to thrown exceptions, and shapes the result tuple.  We embed:

* the query-construction of each list function as the ordered trace of
  builder calls it issues (`QueryOp` list), faithful to the order in which
  the source mutates the query object;
* result shaping as a pure function from the database response
  (`DbResponse`: data / error / count triple) to an `Except`;
* the report-status update as the constructed partial update payload plus
  the row-level semantics of an update guarded by an equality filter on id.
-/

/-- Report status enumeration (database enum `report_status`). -/
inductive ReportStatus where
  | pending
  | processing
  | resolved
  | dismissed
deriving DecidableEq, Repr

/-- A builder call recorded while a list query is constructed.  The source
mutates the query object in place; we record the calls in order. -/
inductive QueryOp where
  /-- `query.or("c1.ilike.%pat%,c2.ilike.%pat%")`: case-insensitive
  substring match on column `c1` OR column `c2`. -/
  | orIlike2 (c1 c2 pat : String)
  /-- `query.eq(col, val)`: equality filter on a column. -/
  | eq (col val : String)
  /-- `query.range(start, stop)`: zero-indexed inclusive row range. -/
  | range (start stop : Int)
  /-- `query.order(col, { ascending })`. -/
  | order (col : String) (ascending : Bool)
deriving DecidableEq, Repr

/-- Parameters of `getUsersForAdmin` (interface `GetUsersParams`).
Optional fields are `Option`; `none` models an absent (undefined) field. -/
structure GetUsersParams where
  page : Option Int := none
  limit : Option Int := none
  search : Option String := none
  role : Option String := none
  tier : Option String := none
deriving DecidableEq, Repr

/-- Parameters of `getPostsForAdmin` (interface `GetAdminPostsParams`). -/
structure GetAdminPostsParams where
  page : Option Int := none
  limit : Option Int := none
deriving DecidableEq, Repr

/-- Parameters of `getReportsForAdmin` (interface `GetReportsParams`). -/
structure GetReportsParams where
  page : Option Int := none
  limit : Option Int := none
  status : Option ReportStatus := none
deriving DecidableEq, Repr

/-- The `query.or(...)` call guarded by `if (search)` (truthy: defined and
non-empty). -/
def searchFilterOps : Option String → List QueryOp
  | some s => if s = "" then [] else [QueryOp.orIlike2 "nickname" "email" s]
  | none => []

/-- A `query.eq(col, v)` call guarded by `if (v)` (truthy: defined and
non-empty), as used for the role and tier filters. -/
def eqFilterOps (col : String) : Option String → List QueryOp
  | some v => if v = "" then [] else [QueryOp.eq col v]
  | none => []

/-- The filter calls `getUsersForAdmin` issues, in source order:
search (`if (search)`), then role (`if (role)`), then tier (`if (tier)`). -/
def usersFilterOps (p : GetUsersParams) : List QueryOp :=
  searchFilterOps p.search ++ eqFilterOps "role" p.role ++ eqFilterOps "tier" p.tier

/-- Full builder-call trace of `getUsersForAdmin`: filters, then
`range(start, end)` with `start = (page-1)*limit`, `end = start+limit-1`,
then `order("created_at", { ascending: false })` — range before order,
as in the source. -/
def getUsersQueryOps (p : GetUsersParams) : List QueryOp :=
  let page := p.page.getD 1
  let limit := p.limit.getD 10
  let start := (page - 1) * limit
  usersFilterOps p
    ++ [QueryOp.range start (start + limit - 1),
        QueryOp.order "created_at" false]

/-- Full builder-call trace of `getPostsForAdmin`: no filters, then
`order("created_at", { ascending: false })`, then `range(from, to)` —
order before range, as in the source chain. -/
def getPostsQueryOps (p : GetAdminPostsParams) : List QueryOp :=
  let page := p.page.getD 1
  let limit := p.limit.getD 10
  let start := (page - 1) * limit
  [QueryOp.order "created_at" false,
   QueryOp.range start (start + limit - 1)]

/-- String form of a report status, as stored in the database. -/
def ReportStatus.toDb : ReportStatus → String
  | .pending => "pending"
  | .processing => "processing"
  | .resolved => "resolved"
  | .dismissed => "dismissed"

/-- The `query.eq("status", status)` call guarded by `if (status)` in
`getReportsForAdmin` (an enum value is always truthy). -/
def statusFilterOps : Option ReportStatus → List QueryOp
  | some st => [QueryOp.eq "status" st.toDb]
  | none => []

/-- Full builder-call trace of `getReportsForAdmin`: status filter when
provided, then `range(start, end)`, then descending order — range before
order, as in the source. -/
def getReportsQueryOps (p : GetReportsParams) : List QueryOp :=
  let page := p.page.getD 1
  let limit := p.limit.getD 10
  let start := (page - 1) * limit
  statusFilterOps p.status
    ++ [QueryOp.range start (start + limit - 1),
        QueryOp.order "created_at" false]

/-- The row range a trace passes to the database: the first `range` call. -/
def rangeOf : List QueryOp → Option (Int × Int)
  | [] => none
  | QueryOp.range s e :: _ => some (s, e)
  | _ :: rest => rangeOf rest

/-- A row of the `users` table (the columns this module filters, sorts or
projects; `select("*")` also returns others, irrelevant here). -/
structure UserRow where
  id : String
  nickname : String
  email : String
  role : String
  tier : String
  created_at : Int
deriving DecidableEq, Repr

/-- A row of the `posts` table as selected by `getPostsForAdmin`
(together with its joined owner and tags, which we leave abstract in the
payload since no claim inspects them). -/
structure PostRow where
  id : String
  title : String
  status : String
  created_at : Int
deriving DecidableEq, Repr

/-- A row of the `reports` table (columns the update touches, plus the
sort key). -/
structure ReportRow where
  id : String
  status : ReportStatus
  resolver_admin_id : Option String
  resolved_at : Option String
  created_at : Int
deriving DecidableEq, Repr

/-- The `{ data, error, count }` triple a query execution returns.
`data = none` models a null row set, `error = some msg` a database error
with message `msg`, `count = none` a null total count. -/
structure DbResponse (α : Type) where
  data : Option (List α)
  error : Option String
  count : Option Int
deriving DecidableEq, Repr

/-- The two failure kinds the module surfaces: read-path errors
(`throw new Error("Failed to fetch ...")`) and write-path errors
(`throw new Error("Failed to update report status: ...")`). -/
inductive AdminError where
  | queryFailure (msg : String)
  | updateFailure (msg : String)
deriving DecidableEq, Repr

/-- Result of `getUsersForAdmin`: `users` is `data as Profile[]` — the raw
row set passed through unchanged (so a null row set stays null, modelled
by `Option`); `count` is `count ?? 0`. -/
structure UsersResult where
  users : Option (List UserRow)
  count : Int
deriving DecidableEq, Repr

/-- Result of `getPostsForAdmin`: `posts` is `(data as ...) || []` — a
null row set is coalesced to the empty list; `count` is `count ?? 0`. -/
structure PostsResult where
  posts : List PostRow
  count : Int
deriving DecidableEq, Repr

/-- Result of `getReportsForAdmin`: like users, the row set is passed
through unchanged. -/
structure ReportsResult where
  reports : Option (List ReportRow)
  count : Int
deriving DecidableEq, Repr

/-- `{ success: true }`-shaped result of the two update functions. -/
structure SimpleResult where
  success : Bool
deriving DecidableEq, Repr

/-- `getUsersForAdmin(params)`.  Returns the builder-call trace it issued
together with the outcome of shaping the database response `resp`:
on `resp.error` it throws `Failed to fetch users: <msg>`, otherwise it
returns `{ users: data, count: count ?? 0 }`. -/
def getUsersForAdmin (p : GetUsersParams) (resp : DbResponse UserRow) :
    List QueryOp × Except AdminError UsersResult :=
  (getUsersQueryOps p,
    match resp.error with
    | some e => Except.error (AdminError.queryFailure ("Failed to fetch users: " ++ e))
    | none => Except.ok { users := resp.data, count := resp.count.getD 0 })

/-- `getPostsForAdmin(params)`: trace plus response shaping; on error it
throws `Failed to fetch posts: <msg>`, otherwise
`{ posts: data || [], count: count ?? 0 }`. -/
def getPostsForAdmin (p : GetAdminPostsParams) (resp : DbResponse PostRow) :
    List QueryOp × Except AdminError PostsResult :=
  (getPostsQueryOps p,
    match resp.error with
    | some e => Except.error (AdminError.queryFailure ("Failed to fetch posts: " ++ e))
    | none => Except.ok { posts := resp.data.getD [], count := resp.count.getD 0 })

/-- `getReportsForAdmin(params)`: trace plus response shaping; on error it
throws `Failed to fetch reports: <msg>`, otherwise
`{ reports: data, count: count ?? 0 }`. -/
def getReportsForAdmin (p : GetReportsParams) (resp : DbResponse ReportRow) :
    List QueryOp × Except AdminError ReportsResult :=
  (getReportsQueryOps p,
    match resp.error with
    | some e => Except.error (AdminError.queryFailure ("Failed to fetch reports: " ++ e))
    | none => Except.ok { reports := resp.data, count := resp.count.getD 0 })

/-- The partial update `updateReportStatusForAdmin` constructs:
`{ status, resolver_admin_id: adminId, resolved_at: [...] }`. -/
structure ReportUpdateData where
  status : ReportStatus
  resolver_admin_id : String
  resolved_at : Option String
deriving DecidableEq, Repr

/-- A database mutation issued by this module: a partial update of the
`reports` table guarded by an equality filter `id = idFilter`. -/
inductive DbMutation where
  | updateReports (payload : ReportUpdateData) (idFilter : String)
deriving DecidableEq, Repr

/-- The update payload of `updateReportStatusForAdmin`: status, the admin
id unconditionally, and `resolved_at` set to the current timestamp `now`
when `["resolved", "dismissed"].includes(status)`, else null. -/
def buildReportUpdate (status : ReportStatus) (adminId now : String) :
    ReportUpdateData :=
  { status := status
    resolver_admin_id := adminId
    resolved_at :=
      if [ReportStatus.resolved, ReportStatus.dismissed].contains status
      then some now else none }

/-- `updateReportStatusForAdmin(reportId, status, adminId)`.  `now` is the
timestamp `new Date().toISOString()` observed during the call; `dbError`
is the error field of the database response to the issued update.
Returns the mutations issued and the outcome: on a database error it
throws `Failed to update report status: <msg>`, else `{ success: true }`. -/
def updateReportStatusForAdmin (reportId : String) (status : ReportStatus)
    (adminId : String) (now : String) (dbError : Option String) :
    List DbMutation × Except AdminError SimpleResult :=
  ([DbMutation.updateReports (buildReportUpdate status adminId now) reportId],
    match dbError with
    | some e => Except.error
        (AdminError.updateFailure ("Failed to update report status: " ++ e))
    | none => Except.ok { success := true })

/-- `updatePostStatusForAdmin(postId, status)`: the stub.  It issues no
database mutation and returns `{ success: true }`. -/
def updatePostStatusForAdmin (postId : String) (status : String) :
    List DbMutation × SimpleResult :=
  ([], { success := true })

/-- Row-level semantics of the update issued with `.eq("id", rid)`: a row
whose id equals `rid` receives the three updated fields, any other row is
unchanged. -/
def applyReportUpdateToRow (u : ReportUpdateData) (rid : String)
    (r : ReportRow) : ReportRow :=
  if r.id = rid then
    { r with
      status := u.status
      resolver_admin_id := some u.resolver_admin_id
      resolved_at := u.resolved_at }
  else r

/-- Table-level semantics of a mutation. -/
def applyDbMutation : DbMutation → List ReportRow → List ReportRow
  | DbMutation.updateReports u rid, tbl => tbl.map (applyReportUpdateToRow u rid)

/-- ASCII lower-casing of one character, the case folding `ilike` applies. -/
def lowChar (c : Char) : Char :=
  if 65 ≤ c.toNat ∧ c.toNat ≤ 90 then Char.ofNat (c.toNat + 32) else c

/-- Lower-cased character list of a string. -/
def lowed (s : String) : List Char := s.data.map lowChar

/-- `p` is an initial segment of `l`. -/
def leadsWith : List Char → List Char → Bool
  | [], _ => true
  | _ :: _, [] => false
  | a :: as, b :: bs => a == b && leadsWith as bs

/-- `p` occurs contiguously inside `l`. -/
def occursIn (p : List Char) : List Char → Bool
  | [] => leadsWith p []
  | b :: bs => leadsWith p (b :: bs) || occursIn p bs

/-- Semantics of `col.ilike.%pat%`: case-insensitive substring match. -/
def ciContains (hay pat : String) : Bool :=
  occursIn (lowed pat) (lowed hay)

/-- Column projection of a user row, for filter semantics. -/
def userCol (u : UserRow) : String → String
  | "id" => u.id
  | "nickname" => u.nickname
  | "email" => u.email
  | "role" => u.role
  | "tier" => u.tier
  | _ => ""

/-- Whether a user row satisfies one builder filter; `range` and `order`
are not row predicates and hold vacuously. -/
def userPassesOp (u : UserRow) : QueryOp → Bool
  | QueryOp.orIlike2 c1 c2 pat =>
      ciContains (userCol u c1) pat || ciContains (userCol u c2) pat
  | QueryOp.eq col v => userCol u col == v
  | QueryOp.range _ _ => true
  | QueryOp.order _ _ => true

/-- Is this builder call a `range` call? -/
def isRangeOp : QueryOp → Bool
  | QueryOp.range _ _ => true
  | _ => false

/-- Is this builder call an `order` call? -/
def isOrderOp : QueryOp → Bool
  | QueryOp.order _ _ => true
  | _ => false

/-- The row-filtering calls of a trace (everything but range and order). -/
def filterOpsOf (ops : List QueryOp) : List QueryOp :=
  ops.filter (fun op => !isRangeOp op && !isOrderOp op)

/-- Insert into a list kept in descending `created_at` order. -/
def insertDescByCreated (u : UserRow) : List UserRow → List UserRow
  | [] => [u]
  | v :: vs =>
      if v.created_at ≤ u.created_at then u :: v :: vs
      else v :: insertDescByCreated u vs

/-- Sort user rows by `created_at` descending
(`order("created_at", { ascending: false })`). -/
def sortDescByCreated : List UserRow → List UserRow
  | [] => []
  | u :: us => insertDescByCreated u (sortDescByCreated us)

/-- Inclusive zero-indexed row range `[s, e]` of a result list
(`range(s, e)`; SQL OFFSET/LIMIT). -/
def sliceRange (s e : Int) (l : List α) : List α :=
  (l.drop s.toNat).take (e - s + 1).toNat

/-- Database-side execution of a users query trace over table `tbl`:
the filters restrict the rows, the order sorts them, the range slices the
sorted list (the database applies order before range whatever the call
order in the trace was). -/
def executeUsersQuery (ops : List QueryOp) (tbl : List UserRow) :
    List UserRow :=
  match rangeOf ops with
  | some (s, e) =>
      sliceRange s e (sortDescByCreated
        (tbl.filter (fun u => (filterOpsOf ops).all (userPassesOp u))))
  | none =>
      sortDescByCreated
        (tbl.filter (fun u => (filterOpsOf ops).all (userPassesOp u)))

/-- A trace applies a descending `created_at` sort first and the row range
afterwards: both calls occur and the first order call precedes the first
range call. -/
def sortThenRange (ops : List QueryOp) : Bool :=
  ops.any isOrderOp && ops.any isRangeOp
    && ops.findIdx isOrderOp < ops.findIdx isRangeOp

/-- A trace applies the row range first and the descending sort second. -/
def rangeThenSort (ops : List QueryOp) : Bool :=
  ops.any isOrderOp && ops.any isRangeOp
    && ops.findIdx isRangeOp < ops.findIdx isOrderOp

/-- A builder call that filters rows (an `or`-of-`ilike` or an `eq` call). -/
def isDataFilter : QueryOp → Bool
  | QueryOp.orIlike2 _ _ _ => true
  | QueryOp.eq _ _ => true
  | _ => false

lemma searchFilterOps_data (o : Option String) :
    ∀ op ∈ searchFilterOps o, isDataFilter op = true := by
  intro op h
  cases o with
  | none => simp [searchFilterOps] at h
  | some s =>
    by_cases he : s = "" <;> simp [searchFilterOps, he] at h
    subst h
    rfl

lemma eqFilterOps_data (col : String) (o : Option String) :
    ∀ op ∈ eqFilterOps col o, isDataFilter op = true := by
  intro op h
  cases o with
  | none => simp [eqFilterOps] at h
  | some v =>
    by_cases he : v = "" <;> simp [eqFilterOps, he] at h
    subst h
    rfl

lemma statusFilterOps_data (o : Option ReportStatus) :
    ∀ op ∈ statusFilterOps o, isDataFilter op = true := by
  intro op h
  cases o with
  | none => simp [statusFilterOps] at h
  | some st =>
    simp [statusFilterOps] at h
    subst h
    rfl

lemma usersFilterOps_data (p : GetUsersParams) :
    ∀ op ∈ usersFilterOps p, isDataFilter op = true := by
  intro op h
  rw [usersFilterOps] at h
  rcases List.mem_append.mp h with h1 | h2
  · rcases List.mem_append.mp h1 with hs | hr
    · exact searchFilterOps_data _ _ hs
    · exact eqFilterOps_data _ _ _ hr
  · exact eqFilterOps_data _ _ _ h2

lemma isDataFilter_not_range {op : QueryOp} (h : isDataFilter op = true) :
    isRangeOp op = false ∧ isOrderOp op = false := by
  cases op <;> simp_all [isDataFilter, isRangeOp, isOrderOp]

lemma rangeOf_append_of_no_range (fs l : List QueryOp)
    (h : ∀ op ∈ fs, isRangeOp op = false) :
    rangeOf (fs ++ l) = rangeOf l := by
  induction fs with
  | nil => rfl
  | cons a as ih =>
    have ha : isRangeOp a = false := h a (by simp)
    have hrest : ∀ op ∈ as, isRangeOp op = false :=
      fun op hop => h op (by simp [hop])
    cases a with
    | range s e => simp [isRangeOp] at ha
    | orIlike2 c1 c2 pat => exact ih hrest
    | eq c v => exact ih hrest
    | order c asc => exact ih hrest

lemma findIdx_append_all_false {α : Type} (p : α → Bool) (fs l : List α)
    (h : ∀ x ∈ fs, p x = false) :
    (fs ++ l).findIdx p = fs.length + l.findIdx p := by
  induction fs with
  | nil => simp
  | cons a as ih =>
    have ha := h a (by simp)
    have ih2 := ih (fun x hx => h x (by simp [hx]))
    simp [List.findIdx_cons, ha, ih2]
    omega

lemma rangeOf_users (p : GetUsersParams) :
    rangeOf (getUsersQueryOps p) =
      some ((p.page.getD 1 - 1) * p.limit.getD 10,
            (p.page.getD 1 - 1) * p.limit.getD 10 + p.limit.getD 10 - 1) := by
  unfold getUsersQueryOps
  rw [rangeOf_append_of_no_range _ _
    (fun op hop => (isDataFilter_not_range (usersFilterOps_data p op hop)).1)]
  rfl

lemma rangeOf_posts (p : GetAdminPostsParams) :
    rangeOf (getPostsQueryOps p) =
      some ((p.page.getD 1 - 1) * p.limit.getD 10,
            (p.page.getD 1 - 1) * p.limit.getD 10 + p.limit.getD 10 - 1) := rfl

lemma rangeOf_reports (p : GetReportsParams) :
    rangeOf (getReportsQueryOps p) =
      some ((p.page.getD 1 - 1) * p.limit.getD 10,
            (p.page.getD 1 - 1) * p.limit.getD 10 + p.limit.getD 10 - 1) := by
  unfold getReportsQueryOps
  rw [rangeOf_append_of_no_range _ _
    (fun op hop => (isDataFilter_not_range (statusFilterOps_data p.status op hop)).1)]
  rfl

lemma rangeThenSort_append (fs : List QueryOp) (s e : Int) (c : String) (b : Bool)
    (h : ∀ op ∈ fs, isDataFilter op = true) :
    rangeThenSort (fs ++ [QueryOp.range s e, QueryOp.order c b]) = true := by
  have hr : ∀ op ∈ fs, isRangeOp op = false :=
    fun op hop => (isDataFilter_not_range (h op hop)).1
  have ho : ∀ op ∈ fs, isOrderOp op = false :=
    fun op hop => (isDataFilter_not_range (h op hop)).2
  have h1 : (fs ++ [QueryOp.range s e, QueryOp.order c b]).findIdx isRangeOp
      = fs.length := by
    rw [findIdx_append_all_false _ _ _ hr]
    simp [List.findIdx_cons, isRangeOp]
  have h2 : (fs ++ [QueryOp.range s e, QueryOp.order c b]).findIdx isOrderOp
      = fs.length + 1 := by
    rw [findIdx_append_all_false _ _ _ ho]
    simp [List.findIdx_cons, isRangeOp, isOrderOp]
  unfold rangeThenSort
  rw [h1, h2]
  simp [List.any_append, List.any_cons, isRangeOp, isOrderOp]

lemma mem_of_mem_insertDescByCreated {a u : UserRow} {l : List UserRow}
    (h : a ∈ insertDescByCreated u l) : a = u ∨ a ∈ l := by
  induction l with
  | nil => simpa [insertDescByCreated] using h
  | cons v vs ih =>
    unfold insertDescByCreated at h
    split at h
    · rcases List.mem_cons.mp h with h1 | h1
      · exact Or.inl h1
      · exact Or.inr h1
    · rcases List.mem_cons.mp h with h1 | h1
      · exact Or.inr (by simp [h1])
      · rcases ih h1 with h2 | h2
        · exact Or.inl h2
        · exact Or.inr (by simp [h2])

lemma mem_of_mem_sortDescByCreated {a : UserRow} {l : List UserRow}
    (h : a ∈ sortDescByCreated l) : a ∈ l := by
  induction l with
  | nil => simpa [sortDescByCreated] using h
  | cons v vs ih =>
    unfold sortDescByCreated at h
    rcases mem_of_mem_insertDescByCreated h with h1 | h1
    · simp [h1]
    · simp [ih h1]

lemma mem_of_mem_sliceRange {α : Type} {a : α} {s e : Int} {l : List α}
    (h : a ∈ sliceRange s e l) : a ∈ l :=
  List.mem_of_mem_drop (List.mem_of_mem_take h)

lemma passes_of_mem_executeUsersQuery {ops : List QueryOp}
    {tbl : List UserRow} {u : UserRow} (h : u ∈ executeUsersQuery ops tbl) :
    ∀ op ∈ filterOpsOf ops, userPassesOp u op = true := by
  have hf : u ∈ tbl.filter (fun v => (filterOpsOf ops).all (userPassesOp v)) := by
    unfold executeUsersQuery at h
    cases hro : rangeOf ops with
    | none =>
      rw [hro] at h
      exact mem_of_mem_sortDescByCreated h
    | some se =>
      obtain ⟨s, e⟩ := se
      rw [hro] at h
      exact mem_of_mem_sortDescByCreated (mem_of_mem_sliceRange h)
  exact List.all_eq_true.mp (List.mem_filter.mp hf).2

/-- C1: `updateReportStatus(reportId, status, adminId)` issues exactly one
update of the `reports` table, guarded by an equality filter on
`id = reportId`; the constructed partial update sets `status` to the given
status, sets `resolver_admin_id` to `adminId` unconditionally, and sets
`resolved_at` to the current timestamp if and only if the status is
resolved or dismissed, clearing it to null otherwise; a row whose id
equals `reportId` receives exactly those three fields and any other row is
unchanged. -/
theorem updateReportStatus_spec (reportId : String) (status : ReportStatus)
    (adminId now : String) (dbError : Option String) :
    (updateReportStatusForAdmin reportId status adminId now dbError).1
      = [DbMutation.updateReports (buildReportUpdate status adminId now) reportId]
    ∧ (buildReportUpdate status adminId now).status = status
    ∧ (buildReportUpdate status adminId now).resolver_admin_id = adminId
    ∧ ((buildReportUpdate status adminId now).resolved_at = some now
        ↔ (status = ReportStatus.resolved ∨ status = ReportStatus.dismissed))
    ∧ ((buildReportUpdate status adminId now).resolved_at = none
        ↔ ¬(status = ReportStatus.resolved ∨ status = ReportStatus.dismissed))
    ∧ (∀ r : ReportRow,
        applyReportUpdateToRow (buildReportUpdate status adminId now) reportId r
          = if r.id = reportId then
              { r with
                status := status
                resolver_admin_id := some adminId
                resolved_at :=
                  if status = ReportStatus.resolved ∨ status = ReportStatus.dismissed
                  then some now else none }
            else r) := by
  refine ⟨rfl, rfl, rfl, ?_, ?_, ?_⟩
  · cases status <;> simp [buildReportUpdate]
  · cases status <;> simp [buildReportUpdate]
  · intro r
    by_cases h : r.id = reportId
    · cases status <;> simp [applyReportUpdateToRow, buildReportUpdate, h]
    · simp [applyReportUpdateToRow, h]

/-- C2: for every list operation and all parameters `page ≥ 1`,
`limit ≥ 1` (with arbitrary filter parameters), the zero-indexed inclusive
row range passed to the database is exactly
`[(page-1)*limit, (page-1)*limit + limit - 1]`. -/
theorem pagination_range (page limit : Int) (hp : 1 ≤ page) (hl : 1 ≤ limit) :
    (∀ search role tier, rangeOf (getUsersQueryOps
        { page := some page, limit := some limit,
          search := search, role := role, tier := tier })
      = some ((page - 1) * limit, (page - 1) * limit + limit - 1))
    ∧ rangeOf (getPostsQueryOps { page := some page, limit := some limit })
      = some ((page - 1) * limit, (page - 1) * limit + limit - 1)
    ∧ (∀ status, rangeOf (getReportsQueryOps
        { page := some page, limit := some limit, status := status })
      = some ((page - 1) * limit, (page - 1) * limit + limit - 1)) := by
  refine ⟨fun search role tier => ?_, ?_, fun status => ?_⟩
  · rw [rangeOf_users]
    rfl
  · rw [rangeOf_posts]
    rfl
  · rw [rangeOf_reports]
    rfl

/-- C2 witness: `page = 2`, `limit = 10` yields the row range `[10, 19]`
for all three list operations. -/
theorem pagination_range_witness :
    rangeOf (getUsersQueryOps { page := some 2, limit := some 10 })
      = some (10, 19)
    ∧ rangeOf (getPostsQueryOps { page := some 2, limit := some 10 })
      = some (10, 19)
    ∧ rangeOf (getReportsQueryOps { page := some 2, limit := some 10 })
      = some (10, 19) := by
  obtain ⟨h1, h2, h3⟩ := pagination_range 2 10 (by decide) (by decide)
  refine ⟨?_, ?_, ?_⟩
  · simpa using h1 none none none
  · simpa using h2
  · simpa using h3 none

/-- C3: `updatePostStatus(postId, status)` issues no database mutation and
unconditionally returns `{ success: true }`. -/
theorem updatePostStatus_stub (postId status : String) :
    updatePostStatusForAdmin postId status = ([], { success := true }) := rfl

lemma filterOpsOf_getUsersQueryOps (p : GetUsersParams) :
    filterOpsOf (getUsersQueryOps p) = usersFilterOps p := by
  unfold getUsersQueryOps filterOpsOf
  rw [List.filter_append]
  have h1 : (usersFilterOps p).filter
      (fun op => !isRangeOp op && !isOrderOp op) = usersFilterOps p := by
    rw [List.filter_eq_self]
    intro op hop
    obtain ⟨hr, ho⟩ := isDataFilter_not_range (usersFilterOps_data p op hop)
    simp [hr, ho]
  rw [h1]
  simp [isRangeOp, isOrderOp]

/-- C4: every user returned by `listUsers` satisfies the case-insensitive
nickname-OR-email substring filter when a non-empty search is given, and
each provided equality filter (role, tier), all combined by AND. -/
theorem usersFilterComposition (p : GetUsersParams) (tbl : List UserRow)
    (u : UserRow) (hu : u ∈ executeUsersQuery (getUsersQueryOps p) tbl) :
    (∀ s, p.search = some s → s ≠ "" →
      (ciContains u.nickname s || ciContains u.email s) = true)
    ∧ (∀ r, p.role = some r → r ≠ "" → u.role = r)
    ∧ (∀ t, p.tier = some t → t ≠ "" → u.tier = t) := by
  have hall := passes_of_mem_executeUsersQuery hu
  rw [filterOpsOf_getUsersQueryOps] at hall
  refine ⟨fun s hs hne => ?_, fun r hr hne => ?_, fun t ht hne => ?_⟩
  · have hmem : QueryOp.orIlike2 "nickname" "email" s ∈ usersFilterOps p := by
      rw [usersFilterOps]
      refine List.mem_append.mpr (Or.inl (List.mem_append.mpr (Or.inl ?_)))
      rw [hs]
      simp [searchFilterOps, hne]
    have := hall _ hmem
    simpa [userPassesOp, userCol] using this
  · have hmem : QueryOp.eq "role" r ∈ usersFilterOps p := by
      rw [usersFilterOps]
      refine List.mem_append.mpr (Or.inl (List.mem_append.mpr (Or.inr ?_)))
      rw [hr]
      simp [eqFilterOps, hne]
    have := hall _ hmem
    simpa [userPassesOp, userCol] using this
  · have hmem : QueryOp.eq "tier" t ∈ usersFilterOps p := by
      rw [usersFilterOps]
      refine List.mem_append.mpr (Or.inr ?_)
      rw [ht]
      simp [eqFilterOps, hne]
    have := hall _ hmem
    simpa [userPassesOp, userCol] using this

/-- C4 witness: over a concrete two-row table, with `search = "ann"` and
`role = "admin"`, the returned row matches `*ann*` case-insensitively on
nickname or email and has role admin. -/
theorem usersFilterComposition_witness :
    (ciContains (UserRow.mk "u1" "Anna" "a@x.io" "admin" "gold" 5).nickname "ann"
      || ciContains (UserRow.mk "u1" "Anna" "a@x.io" "admin" "gold" 5).email "ann") = true
    ∧ (UserRow.mk "u1" "Anna" "a@x.io" "admin" "gold" 5).role = "admin" := by
  have h := usersFilterComposition
    { search := some "ann", role := some "admin" }
    [UserRow.mk "u1" "Anna" "a@x.io" "admin" "gold" 5,
     UserRow.mk "u2" "bob" "b@x.io" "member" "free" 3]
    (UserRow.mk "u1" "Anna" "a@x.io" "admin" "gold" 5)
    (by decide)
  exact ⟨h.1 "ann" rfl (by decide), h.2.1 "admin" rfl (by decide)⟩

/-- C5: whenever the database reports an error, each operation raises its
documented failure kind — `queryFailure` for the three reads,
`updateFailure` for the report-status update — carrying the underlying
database error message, and returns no success result. -/
theorem errorPropagation (e : String) :
    (∀ (p : GetUsersParams) (resp : DbResponse UserRow), resp.error = some e →
      (getUsersForAdmin p resp).2
        = Except.error (AdminError.queryFailure ("Failed to fetch users: " ++ e)))
    ∧ (∀ (p : GetAdminPostsParams) (resp : DbResponse PostRow), resp.error = some e →
      (getPostsForAdmin p resp).2
        = Except.error (AdminError.queryFailure ("Failed to fetch posts: " ++ e)))
    ∧ (∀ (p : GetReportsParams) (resp : DbResponse ReportRow), resp.error = some e →
      (getReportsForAdmin p resp).2
        = Except.error (AdminError.queryFailure ("Failed to fetch reports: " ++ e)))
    ∧ (∀ reportId status adminId now,
      (updateReportStatusForAdmin reportId status adminId now (some e)).2
        = Except.error
            (AdminError.updateFailure ("Failed to update report status: " ++ e))) := by
  refine ⟨fun p resp h => ?_, fun p resp h => ?_, fun p resp h => ?_,
    fun reportId status adminId now => rfl⟩
  · simp [getUsersForAdmin, h]
  · simp [getPostsForAdmin, h]
  · simp [getReportsForAdmin, h]

/-- C5 witness: a concrete database error message is propagated as the
documented failure kind by each of the four operations. -/
theorem errorPropagation_witness :
    (getUsersForAdmin {} { data := none, error := some "boom", count := none }).2
      = Except.error (AdminError.queryFailure ("Failed to fetch users: " ++ "boom"))
    ∧ (getPostsForAdmin {} { data := none, error := some "boom", count := none }).2
      = Except.error (AdminError.queryFailure ("Failed to fetch posts: " ++ "boom"))
    ∧ (getReportsForAdmin {} { data := none, error := some "boom", count := none }).2
      = Except.error (AdminError.queryFailure ("Failed to fetch reports: " ++ "boom"))
    ∧ (updateReportStatusForAdmin "r1" ReportStatus.resolved "a1" "t0" (some "boom")).2
      = Except.error
          (AdminError.updateFailure ("Failed to update report status: " ++ "boom")) := by
  obtain ⟨h1, h2, h3, h4⟩ := errorPropagation "boom"
  exact ⟨h1 {} _ rfl, h2 {} _ rfl, h3 {} _ rfl, h4 "r1" ReportStatus.resolved "a1" "t0"⟩

/-- C6 counterexample: at default parameters, neither `listUsers` nor
`listReports` applies the descending sort before the row range — the
builder-call trace has the range call first. -/
theorem sortBeforeRange_counterexample :
    sortThenRange (getUsersQueryOps {}) = false
    ∧ sortThenRange (getReportsQueryOps {}) = false := by
  constructor <;> rfl

/-- C6 amended: in `listUsers` and `listReports` the query construction
always applies the computed row range first and then the descending sort
by creation timestamp (both calls are always present). -/
theorem rangeBeforeSort (p : GetUsersParams) (q : GetReportsParams) :
    rangeThenSort (getUsersQueryOps p) = true
    ∧ rangeThenSort (getReportsQueryOps q) = true := by
  constructor
  · unfold getUsersQueryOps
    exact rangeThenSort_append _ _ _ _ _ (usersFilterOps_data p)
  · unfold getReportsQueryOps
    exact rangeThenSort_append _ _ _ _ _ (statusFilterOps_data q.status)

/-- C7: each list operation called with no arguments behaves identically
to calling it with `{ page: 1, limit: 10 }` and all filters absent: the
issued query trace and the shaped result agree on every database
response. -/
theorem defaultParams :
    (∀ resp : DbResponse UserRow,
      getUsersForAdmin {} resp
        = getUsersForAdmin { page := some 1, limit := some 10 } resp)
    ∧ (∀ resp : DbResponse PostRow,
      getPostsForAdmin {} resp
        = getPostsForAdmin { page := some 1, limit := some 10 } resp)
    ∧ (∀ resp : DbResponse ReportRow,
      getReportsForAdmin {} resp
        = getReportsForAdmin { page := some 1, limit := some 10 } resp) :=
  ⟨fun _ => rfl, fun _ => rfl, fun _ => rfl⟩

/-- C8: on every successful call of a list operation, the returned count
is the database count with null defaulted to 0 — so it is 0 when the
database reports null, equals the exact count otherwise, and is never
null. -/
theorem countNullDefault :
    (∀ (p : GetUsersParams) (resp : DbResponse UserRow), resp.error = none →
      ∃ res, (getUsersForAdmin p resp).2 = Except.ok res
        ∧ res.count = resp.count.getD 0
        ∧ (resp.count = none → res.count = 0)
        ∧ (∀ c, resp.count = some c → res.count = c))
    ∧ (∀ (p : GetAdminPostsParams) (resp : DbResponse PostRow), resp.error = none →
      ∃ res, (getPostsForAdmin p resp).2 = Except.ok res
        ∧ res.count = resp.count.getD 0
        ∧ (resp.count = none → res.count = 0)
        ∧ (∀ c, resp.count = some c → res.count = c))
    ∧ (∀ (p : GetReportsParams) (resp : DbResponse ReportRow), resp.error = none →
      ∃ res, (getReportsForAdmin p resp).2 = Except.ok res
        ∧ res.count = resp.count.getD 0
        ∧ (resp.count = none → res.count = 0)
        ∧ (∀ c, resp.count = some c → res.count = c)) := by
  refine ⟨fun p resp h => ?_, fun p resp h => ?_, fun p resp h => ?_⟩
  · refine ⟨{ users := resp.data, count := resp.count.getD 0 }, ?_, rfl,
      fun hc => by simp [hc], fun c hc => by simp [hc]⟩
    simp [getUsersForAdmin, h]
  · refine ⟨{ posts := resp.data.getD [], count := resp.count.getD 0 }, ?_, rfl,
      fun hc => by simp [hc], fun c hc => by simp [hc]⟩
    simp [getPostsForAdmin, h]
  · refine ⟨{ reports := resp.data, count := resp.count.getD 0 }, ?_, rfl,
      fun hc => by simp [hc], fun c hc => by simp [hc]⟩
    simp [getReportsForAdmin, h]

/-- C8 witness: with a null database count and no error, the three list
operations all return count 0. -/
theorem countNullDefault_witness :
    (∃ res, (getUsersForAdmin {}
        { data := some [], error := none, count := none }).2 = Except.ok res
      ∧ res.count = 0)
    ∧ (∃ res, (getPostsForAdmin {}
        { data := some [], error := none, count := none }).2 = Except.ok res
      ∧ res.count = 0)
    ∧ (∃ res, (getReportsForAdmin {}
        { data := some [], error := none, count := none }).2 = Except.ok res
      ∧ res.count = 0) := by
  obtain ⟨h1, h2, h3⟩ := countNullDefault
  refine ⟨?_, ?_, ?_⟩
  · obtain ⟨res, ha, _, hz, _⟩ :=
      h1 {} { data := some [], error := none, count := none } rfl
    exact ⟨res, ha, hz rfl⟩
  · obtain ⟨res, ha, _, hz, _⟩ :=
      h2 {} { data := some [], error := none, count := none } rfl
    exact ⟨res, ha, hz rfl⟩
  · obtain ⟨res, ha, _, hz, _⟩ :=
      h3 {} { data := some [], error := none, count := none } rfl
    exact ⟨res, ha, hz rfl⟩

/-- C9: when the database returns no error, `listPosts` coalesces a null
row set to the empty array, while `listUsers` and `listReports` pass the
row set through unchanged (a null row set stays null). -/
theorem nullRowSetHandling :
    (∀ (p : GetAdminPostsParams) (resp : DbResponse PostRow), resp.error = none →
      ∃ res, (getPostsForAdmin p resp).2 = Except.ok res
        ∧ res.posts = resp.data.getD []
        ∧ (resp.data = none → res.posts = []))
    ∧ (∀ (p : GetUsersParams) (resp : DbResponse UserRow), resp.error = none →
      ∃ res, (getUsersForAdmin p resp).2 = Except.ok res
        ∧ res.users = resp.data)
    ∧ (∀ (p : GetReportsParams) (resp : DbResponse ReportRow), resp.error = none →
      ∃ res, (getReportsForAdmin p resp).2 = Except.ok res
        ∧ res.reports = resp.data) := by
  refine ⟨fun p resp h => ?_, fun p resp h => ?_, fun p resp h => ?_⟩
  · refine ⟨{ posts := resp.data.getD [], count := resp.count.getD 0 }, ?_, rfl,
      fun hd => by simp [hd]⟩
    simp [getPostsForAdmin, h]
  · refine ⟨{ users := resp.data, count := resp.count.getD 0 }, ?_, rfl⟩
    simp [getUsersForAdmin, h]
  · refine ⟨{ reports := resp.data, count := resp.count.getD 0 }, ?_, rfl⟩
    simp [getReportsForAdmin, h]

/-- C9 witness: on a null row set with no error, the posts result is the
empty list while the users and reports results stay null. -/
theorem nullRowSetHandling_witness :
    (∃ res, (getPostsForAdmin {}
        { data := none, error := none, count := some 0 }).2 = Except.ok res
      ∧ res.posts = [])
    ∧ (∃ res, (getUsersForAdmin {}
        { data := none, error := none, count := some 0 }).2 = Except.ok res
      ∧ res.users = none)
    ∧ (∃ res, (getReportsForAdmin {}
        { data := none, error := none, count := some 0 }).2 = Except.ok res
      ∧ res.reports = none) := by
  obtain ⟨h1, h2, h3⟩ := nullRowSetHandling
  refine ⟨?_, ?_, ?_⟩
  · obtain ⟨res, ha, _, hz⟩ :=
      h1 {} { data := none, error := none, count := some 0 } rfl
    exact ⟨res, ha, hz rfl⟩
  · obtain ⟨res, ha, hz⟩ :=
      h2 {} { data := none, error := none, count := some 0 } rfl
    exact ⟨res, ha, hz⟩
  · obtain ⟨res, ha, hz⟩ :=
      h3 {} { data := none, error := none, count := some 0 } rfl
    exact ⟨res, ha, hz⟩

/-- C10: no list operation validates or clamps its pagination parameters:
for `page < 1` and `limit ≥ 1` the computed range start `(page-1)*limit`
is negative, the range is passed to the database row-range limiter
unchanged, and the module raises no error of its own (it fails only when
the database reports an error). -/
theorem noPaginationValidation (page limit : Int)
    (hp : page < 1) (hl : 1 ≤ limit) :
    (page - 1) * limit < 0
    ∧ (∀ search role tier, rangeOf (getUsersQueryOps
        { page := some page, limit := some limit,
          search := search, role := role, tier := tier })
      = some ((page - 1) * limit, (page - 1) * limit + limit - 1))
    ∧ rangeOf (getPostsQueryOps { page := some page, limit := some limit })
      = some ((page - 1) * limit, (page - 1) * limit + limit - 1)
    ∧ (∀ status, rangeOf (getReportsQueryOps
        { page := some page, limit := some limit, status := status })
      = some ((page - 1) * limit, (page - 1) * limit + limit - 1))
    ∧ (∀ resp : DbResponse UserRow, resp.error = none →
      ∃ res, (getUsersForAdmin
        { page := some page, limit := some limit } resp).2 = Except.ok res)
    ∧ (∀ resp : DbResponse PostRow, resp.error = none →
      ∃ res, (getPostsForAdmin
        { page := some page, limit := some limit } resp).2 = Except.ok res)
    ∧ (∀ resp : DbResponse ReportRow, resp.error = none →
      ∃ res, (getReportsForAdmin
        { page := some page, limit := some limit } resp).2 = Except.ok res) := by
  refine ⟨mul_neg_of_neg_of_pos (by omega) (by omega),
    fun search role tier => ?_, ?_, fun status => ?_,
    fun resp h => ?_, fun resp h => ?_, fun resp h => ?_⟩
  · rw [rangeOf_users]
    rfl
  · rw [rangeOf_posts]
    rfl
  · rw [rangeOf_reports]
    rfl
  · refine ⟨{ users := resp.data, count := resp.count.getD 0 }, ?_⟩
    simp [getUsersForAdmin, h]
  · refine ⟨{ posts := resp.data.getD [], count := resp.count.getD 0 }, ?_⟩
    simp [getPostsForAdmin, h]
  · refine ⟨{ reports := resp.data, count := resp.count.getD 0 }, ?_⟩
    simp [getReportsForAdmin, h]

/-- C10 witness: `page = 0`, `limit = 10` yields the negative range
`[-10, -1]`, passed unchanged, and a successful call. -/
theorem noPaginationValidation_witness :
    ((0 : Int) - 1) * 10 < 0
    ∧ rangeOf (getUsersQueryOps { page := some 0, limit := some 10 })
      = some ((0 - 1) * 10, (0 - 1) * 10 + 10 - 1)
    ∧ ∃ res, (getUsersForAdmin { page := some 0, limit := some 10 }
        { data := some [], error := none, count := some 0 }).2 = Except.ok res := by
  obtain ⟨h1, h2, _, _, h5, _, _⟩ :=
    noPaginationValidation 0 10 (by decide) (by decide)
  exact ⟨h1, h2 none none none,
    h5 { data := some [], error := none, count := some 0 } rfl⟩
